import Mathlib

/-!
Verification development for the `sfmcp` repository
(`app/mcp/tools/dynamic_tools.py` and its collaborators).

The Python source is shallowly embedded: the lxml element trees built by the
XML generators become an inductive `XmlNode` tree; the in-memory zip archives
become association lists from archive path to document; the network boundary
(SOQL queries, Tooling queries, multipart deploy submission, status polling)
becomes an explicit environment of oracles, and every orchestrator returns,
next to its JSON response, the list of network calls it performed, so that
claims about "no network call before X" are statable.  Exceptions raised by
Python code are modelled with `Except`: an `Except.error` escaping a helper
corresponds to an exception propagating to the orchestrator's catch-all
handler.  `time.sleep(interval)` is the only way time advances in the poll
loop (HTTP request latency is abstracted to zero), so elapsed time after `k`
completed sleeps is `k * interval`.
-/

namespace SfMcp

/-! ## XML documents

`lxml.etree` trees are modelled structurally: an element with a tag and
children, or a text payload (`SubElement(...).text = s` becomes an element
whose single child is a text node).  Serialization (`etree.tostring`) is not
modelled; the claims only concern document structure. -/

inductive XmlNode where
  | elem (tag : String) (children : List XmlNode)
  | textNode (s : String)

mutual

/-- Number of elements with tag `t` in a tree (used to count `members`
entries of a manifest and `valueSet` entries of a field document). -/
def countTag (t : String) : XmlNode → Nat
  | XmlNode.textNode _ => 0
  | XmlNode.elem tag children => (if tag = t then 1 else 0) + countTagL t children

/-- Number of elements with tag `t` in a forest. -/
def countTagL (t : String) : List XmlNode → Nat
  | [] => 0
  | n :: ns => countTag t n + countTagL t ns

end

/-- A leaf element `<tag>txt</tag>`, the shape produced by
`etree.SubElement(parent, tag).text = txt`. -/
def leaf (tag txt : String) : XmlNode := XmlNode.elem tag [XmlNode.textNode txt]

/-- Optional leaf element: emitted only when `cond` holds, mirroring the
source's `if ...: etree.SubElement(...)` lines. -/
def optLeaf (cond : Prop) [Decidable cond] (tag txt : String) : List XmlNode :=
  if cond then [leaf tag txt] else []

/-! ## Python string helpers

All helpers recurse structurally over `String.data` so that every
definition evaluates inside the kernel (`rfl`/`decide`) on concrete
inputs. -/

/-- Python `str.isalnum()` (ASCII fragment): true iff the string is nonempty
and every character is a letter or digit. -/
def pyIsAlnum (s : String) : Bool := !s.data.isEmpty && s.data.all Char.isAlphanum

/-- Python `str(b).lower()` for a bool `b`. -/
def pyBoolStr (b : Bool) : String := if b then "true" else "false"

/-- Decide whether `p` is a prefix of `l`. -/
def isPrefixCharsB : List Char → List Char → Bool
  | [], _ => true
  | _ :: _, [] => false
  | a :: as, b :: bs => a = b && isPrefixCharsB as bs

/-- Decide whether `needle` occurs inside `hay`. -/
def substrAux (needle : List Char) : List Char → Bool
  | [] => needle.isEmpty
  | c :: cs => isPrefixCharsB needle (c :: cs) || substrAux needle cs

/-- Python `needle in hay` on strings. -/
def substrB (needle hay : String) : Bool := substrAux needle.data hay.data

/-- The whitespace characters Python's `str.strip()` removes (ASCII). -/
def isPySpace (c : Char) : Bool :=
  c = ' ' || c = '\t' || c = '\n' || c = '\x0d' || c = '\x0b' || c = '\x0c'

/-- Python `str.strip()`. -/
def pyStrip (s : String) : String :=
  String.mk (((s.data.dropWhile isPySpace).reverse.dropWhile isPySpace).reverse)

/-- Python `str.replace(c, "")` for a one-character pattern: delete every
occurrence of `c`. -/
def pyRemoveChar (c : Char) (s : String) : String :=
  String.mk (s.data.filter (fun x => x ≠ c))

/-- Python `str.endswith(suffix)`. -/
def pyEndsWith (s suffix : String) : Bool :=
  isPrefixCharsB suffix.data.reverse s.data.reverse

/-- Python `s[:-n]` (drop the last `n` characters). -/
def pyDropRight (s : String) (n : Nat) : String :=
  String.mk (s.data.take (s.data.length - n))

/-- Split on the characters satisfying `p`, keeping empty pieces
(Python `re.split` over a single-character class). -/
def splitCharsAux (p : Char → Bool) (acc : List Char) : List Char → List (List Char)
  | [] => [acc.reverse]
  | c :: cs =>
    if p c then acc.reverse :: splitCharsAux p [] cs
    else splitCharsAux p (c :: acc) cs

/-- String-level split. -/
def pySplit (p : Char → Bool) (s : String) : List String :=
  (splitCharsAux p [] s.data).map String.mk

/-- Value of a digit run read in base 10. -/
def digitsToNat (cs : List Char) : Nat :=
  cs.foldl (fun n c => n * 10 + (c.toNat - '0'.toNat)) 0

/-- Python `int(v)` for a string already known to match `-?\d+`. -/
def pyToInt (s : String) : Int :=
  match s.data with
  | '-' :: rest => -(Int.ofNat (digitsToNat rest))
  | cs => Int.ofNat (digitsToNat cs)

/-! ## `_generate_package_xml`

`_generate_package_xml(members, metadata_type, api_version)` builds
`<Package><types><members>m</members>…<name>type</name></types>
<version>v</version></Package>`. -/

def _generate_package_xml (members : List String) (metadata_type api_version : String) :
    XmlNode :=
  XmlNode.elem "Package"
    [XmlNode.elem "types"
      ((members.map (fun m => leaf "members" m)) ++ [leaf "name" metadata_type]),
     leaf "version" api_version]

/-- Declared member count of a manifest document. -/
def manifestMemberCount (n : XmlNode) : Nat := countTag "members" n

/-! ## Deploy poller: `_poll_metadata_rest_deploy_status`

```
start = time.time()
while True:
    if time.time() - start > timeout_seconds:
        return {"success": False, "status": "Timeout"}
    resp = requests.get(endpoint, headers=headers, timeout=45)
    resp.raise_for_status()
    result = resp.json().get("deployResult", {})
    if result.get("done"):
        return {"success": result["status"] in {"Succeeded", "SucceededPartial"},
                "status": result["status"], "details": result.get("details")}
    ...
    time.sleep(interval_seconds)
```

Each status request is answered by a schedule `sched : Nat → PollResp`; the
`i`-th request either fails at the transport level (non-2xx response or
connection error, so that `requests.get`/`raise_for_status` raises) or
returns a `deployResult` payload.  The loop is phrased with fuel; the entry
point supplies enough fuel so that, with a positive interval, the fuel case
is unreachable before the timeout check fires. -/

inductive PollResp where
  /-- The call `requests.get` raised, or `raise_for_status` raised on a non-2xx reply. -/
  | transportError
  /-- A 2xx reply whose `deployResult` has the given `done`, `status` and
  `details` fields. -/
  | result (done : Bool) (status : String) (details : Option String)
deriving Repr, DecidableEq

/-- The normalized dict the poller returns. -/
structure PollOutcome where
  success : Bool
  status : String
  details : Option String
deriving Repr, DecidableEq

/-- Mirrors `result["status"] in {"Succeeded", "SucceededPartial"}`. -/
def pollSuccessStatus (s : String) : Bool := s = "Succeeded" || s = "SucceededPartial"

/-- Python `str.lower()` (character-wise `Char.toLower`). -/
def pyLower (s : String) : String := String.mk (s.data.map Char.toLower)

/-- The dead local `success_flag = str(status.get("status", "")).lower() == "succeeded"`
computed (and never used) by `deploy_apex_class_internal` and
`deploy_lwc_component_internal`. -/
def strict_success_flag (status : String) : Bool := pyLower status == "succeeded"

/-- One fuelled pass of the poll loop.  Arguments: remaining fuel, elapsed
seconds, index of the next status request.  Returns the poll result —
`Except.error` when an uncaught exception escapes the loop — together with
the number of status requests that were issued. -/
def pollLoop (sched : Nat → PollResp) (timeout interval : Nat) :
    Nat → Nat → Nat → Except String PollOutcome × Nat
  | fuel, elapsed, i =>
    if timeout < elapsed then (Except.ok ⟨false, "Timeout", none⟩, i)
    else
      match fuel with
      | 0 => (Except.error "fuel exhausted", i)
      | fuel + 1 =>
        match sched i with
        | PollResp.transportError => (Except.error "HTTPError", i + 1)
        | PollResp.result done status details =>
          if done then (Except.ok ⟨pollSuccessStatus status, status, details⟩, i + 1)
          else pollLoop sched timeout interval fuel (elapsed + interval) (i + 1)

/-- Mirrors `_poll_metadata_rest_deploy_status(sf, id, timeout_seconds, interval_seconds)`.
The fuel `timeout / max interval 1 + 2` exceeds the number of iterations the
`while True` loop can perform before `time.time() - start > timeout`. -/
def _poll_metadata_rest_deploy_status (sched : Nat → PollResp) (timeout interval : Nat) :
    Except String PollOutcome × Nat :=
  pollLoop sched timeout interval (timeout / max interval 1 + 2) 0 0

/-! ## Field configurations

`upsert_custom_field._parse_kv` coerces the values of the compact
`type_params` string: `"true"`/`"false"` become booleans, integer literals
become ints, float literals become floats, everything else stays a string.
`PyVal` mirrors that value universe; a float literal is kept as its source
text (no claim depends on float semantics). -/

inductive PyVal where
  | vStr (s : String)
  | vInt (n : Int)
  | vFloatLit (s : String)
  | vBool (b : Bool)
deriving Repr, DecidableEq

/-- Python `str(v)` for a coerced value (float literals abstracted to their
source text). -/
def pyStr : PyVal → String
  | PyVal.vStr s => s
  | PyVal.vInt n => toString n
  | PyVal.vFloatLit s => s
  | PyVal.vBool b => if b then "True" else "False"

/-- Python truthiness of a coerced value. -/
def pyTruthy : PyVal → Bool
  | PyVal.vStr s => !s.data.isEmpty
  | PyVal.vInt n => n != 0
  | PyVal.vFloatLit s => !((s.data.filter Char.isDigit).all (· = '0'))
  | PyVal.vBool b => b

/-- One entry of the `picklistValues` list of a field config. -/
structure PicklistValue where
  fullName : String
  label : Option String
  default : Option Bool
deriving Repr, DecidableEq

/-- The `field_config` dict consumed by `_generate_custom_field_xml` and
`_generate_custom_object_with_field`.  The dict key `"type"` is the Lean
field `ty`; a key that may be absent is an `Option` (with `none` for
"key not in dict"); `picklistValues` is read with `.get(...)`, under which
a missing key and an empty list behave alike, so it is a plain list. -/
structure FieldConfig where
  fullName : String
  label : String
  ty : String
  length : Option PyVal
  visibleLines : Option PyVal
  precision : Option PyVal
  scale : Option PyVal
  defaultValue : Option PyVal
  description : Option String
  required : Option Bool
  unique : Option Bool
  externalId : Option Bool
  picklistValues : List PicklistValue
  referenceTo : Option String
  relationshipLabel : Option String
  relationshipName : Option String
  deleteConstraint : Option String
deriving Repr, DecidableEq

/-- Optional leaf from an `Option` attribute: the `if key in field_config:
SubElement(...)` pattern. -/
def optMatchLeaf {α : Type} (o : Option α) (tag : String) (f : α → String) : List XmlNode :=
  match o with
  | some a => [leaf tag (f a)]
  | none => []

/-- The `<valueSet>` block emitted for a non-empty `picklistValues` list. -/
def picklistValueSet (pvs : List PicklistValue) : XmlNode :=
  XmlNode.elem "valueSet"
    [leaf "restricted" "true",
     XmlNode.elem "valueSetDefinition"
       (pvs.map (fun pv =>
         XmlNode.elem "value"
           [leaf "fullName" pv.fullName,
            leaf "label" (pv.label.getD pv.fullName),
            leaf "default" (pyBoolStr (pv.default.getD false))]))]

/-- Mirrors `_generate_custom_field_xml(field_config)`: the `<CustomField>` document
for a single field.  Each appended segment mirrors one `if` block of the
source, in source order; the function is total — no input makes it fail. -/
def _generate_custom_field_xml (cfg : FieldConfig) : XmlNode :=
  XmlNode.elem "CustomField"
    ([leaf "fullName" cfg.fullName, leaf "label" cfg.label, leaf "type" cfg.ty]
     ++ optLeaf ((cfg.ty = "Text" ∨ cfg.ty = "LongTextArea") ∧ cfg.length.isSome)
          "length" (pyStr (cfg.length.getD (PyVal.vInt 0)))
     ++ (if cfg.ty = "Number" ∨ cfg.ty = "Currency" ∨ cfg.ty = "Percent" then
           optLeaf cfg.precision.isSome "precision" (pyStr (cfg.precision.getD (PyVal.vInt 0)))
           ++ optLeaf cfg.scale.isSome "scale" (pyStr (cfg.scale.getD (PyVal.vInt 0)))
         else [])
     ++ optLeaf (cfg.defaultValue.any pyTruthy = true)
          "defaultValue" (pyStr (cfg.defaultValue.getD (PyVal.vStr "")))
     ++ optLeaf (cfg.description.getD "" ≠ "") "description" (cfg.description.getD "")
     ++ optMatchLeaf cfg.required "required" pyBoolStr
     ++ optMatchLeaf cfg.unique "unique" pyBoolStr
     ++ optMatchLeaf cfg.externalId "externalId" pyBoolStr
     ++ (if (cfg.ty = "Picklist" ∨ cfg.ty = "MultiselectPicklist") ∧ cfg.picklistValues ≠ [] then
           [picklistValueSet cfg.picklistValues]
         else [])
     ++ (if (cfg.ty = "Lookup" ∨ cfg.ty = "MasterDetail") ∧ cfg.referenceTo.getD "" ≠ "" then
           [leaf "referenceTo" (cfg.referenceTo.getD "")]
           ++ optMatchLeaf cfg.relationshipLabel "relationshipLabel" (fun l => l)
           ++ optMatchLeaf cfg.relationshipName "relationshipName" (fun l => l)
         else []))

/-- Mirrors `_generate_custom_object_with_field(object_name, field_config)`: the
`<CustomObject>` document wrapping one `<fields>` block (the document the
field-deploy archive actually ships). -/
def _generate_custom_object_with_field (object_name : String) (cfg : FieldConfig) : XmlNode :=
  XmlNode.elem "CustomObject"
    (optLeaf (pyEndsWith object_name "__c" = true) "fullName" object_name
     ++ [XmlNode.elem "fields"
          ([leaf "fullName" cfg.fullName, leaf "label" cfg.label, leaf "type" cfg.ty]
           ++ optLeaf ((cfg.ty = "Text" ∨ cfg.ty = "LongTextArea") ∧ cfg.length.isSome)
                "length" (pyStr (cfg.length.getD (PyVal.vInt 0)))
           ++ (if cfg.ty = "LongTextArea" then
                 optLeaf cfg.visibleLines.isSome "visibleLines"
                   (pyStr (cfg.visibleLines.getD (PyVal.vInt 0)))
               else [])
           ++ (if cfg.ty = "Number" ∨ cfg.ty = "Currency" ∨ cfg.ty = "Percent" then
                 optLeaf cfg.precision.isSome "precision" (pyStr (cfg.precision.getD (PyVal.vInt 0)))
                 ++ optLeaf cfg.scale.isSome "scale" (pyStr (cfg.scale.getD (PyVal.vInt 0)))
               else [])
           ++ (if (cfg.ty = "Picklist" ∨ cfg.ty = "MultiselectPicklist") ∧ cfg.picklistValues ≠ [] then
                 [picklistValueSet cfg.picklistValues]
               else [])
           ++ (if (cfg.ty = "Lookup" ∨ cfg.ty = "MasterDetail") ∧ cfg.referenceTo.getD "" ≠ "" then
                 [leaf "referenceTo" (cfg.referenceTo.getD "")]
                 ++ optMatchLeaf cfg.relationshipLabel "relationshipLabel" (fun l => l)
                 ++ optMatchLeaf cfg.relationshipName "relationshipName" (fun l => l)
                 ++ (if cfg.ty = "MasterDetail" then
                       optMatchLeaf cfg.deleteConstraint "deleteConstraint" (fun d => d)
                     else [])
               else [])
           ++ optMatchLeaf cfg.required "required" pyBoolStr
           ++ optMatchLeaf cfg.unique "unique" pyBoolStr
           ++ optMatchLeaf cfg.externalId "externalId" pyBoolStr
           ++ optLeaf (cfg.description.getD "" ≠ "") "description" (cfg.description.getD ""))])

/-- Mirrors `_generate_custom_object_xml(object_label, plural_label, description,
sharing_model, deployment_status)`: object-level document, no `<fields/>`. -/
def _generate_custom_object_xml (object_label plural_label description sharing_model
    deployment_status : String) : XmlNode :=
  XmlNode.elem "CustomObject"
    ([leaf "label" object_label, leaf "pluralLabel" plural_label]
     ++ optLeaf (description ≠ "") "description" description
     ++ [leaf "sharingModel" sharing_model,
         leaf "deploymentStatus" deployment_status,
         leaf "enableActivities" "true",
         leaf "enableReports" "true",
         leaf "enableSearch" "true",
         XmlNode.elem "nameField" [leaf "label" (object_label ++ " Name"), leaf "type" "Text"]])

/-! ## Deploy archives

A `zipfile.ZipFile` written with `writestr` becomes an ordered association
list from archive path to document (an XML tree for generated documents,
raw text for caller-supplied file bodies). -/

inductive ArchiveDoc where
  | xmlDoc (n : XmlNode)
  | textDoc (s : String)

abbrev Archive := List (String × ArchiveDoc)

/-- Number of manifest (`package.xml`) entries of an archive. -/
def manifestEntryCount (a : Archive) : Nat :=
  (a.filter (fun e => e.1 = "package.xml")).length

/-- Total member count declared across an archive's manifest entries. -/
def declaredMemberTotal (a : Archive) : Nat :=
  (a.map (fun e =>
    if e.1 = "package.xml" then
      match e.2 with
      | ArchiveDoc.xmlDoc n => manifestMemberCount n
      | ArchiveDoc.textDoc _ => 0
    else 0)).sum

/-- The `.cls-meta.xml` document built inline by `deploy_apex_class_internal`. -/
def apexClassMetaXml (api_version : String) : XmlNode :=
  XmlNode.elem "ApexClass" [leaf "apiVersion" api_version, leaf "status" "Active"]

/-- The zip written by `deploy_apex_class_internal`:
`package.xml`, `classes/{name}.cls`, `classes/{name}.cls-meta.xml`. -/
def deploy_apex_class_archive (class_name apexBody api_version : String) : Archive :=
  [("package.xml", ArchiveDoc.xmlDoc (_generate_package_xml [class_name] "ApexClass" api_version)),
   ("classes/" ++ class_name ++ ".cls", ArchiveDoc.textDoc apexBody),
   ("classes/" ++ class_name ++ ".cls-meta.xml", ArchiveDoc.xmlDoc (apexClassMetaXml api_version))]

/-- The `files_content` dict handed to `deploy_lwc_component_internal`:
`html`, `js` and `xml` are always present; `css`/`svg` are read with
`.get(...)` and written only when truthy. -/
structure LwcFiles where
  html : String
  js : String
  xml : String
  css : Option String
  svg : Option String

/-- The zip written by `deploy_lwc_component_internal`. -/
def deploy_lwc_component_archive (sfVersion component_name : String) (files : LwcFiles) :
    Archive :=
  [("package.xml",
    ArchiveDoc.xmlDoc (_generate_package_xml [component_name] "LightningComponentBundle" sfVersion)),
   ("lwc/" ++ component_name ++ "/" ++ component_name ++ ".html", ArchiveDoc.textDoc files.html),
   ("lwc/" ++ component_name ++ "/" ++ component_name ++ ".js", ArchiveDoc.textDoc files.js),
   ("lwc/" ++ component_name ++ "/" ++ component_name ++ ".js-meta.xml", ArchiveDoc.textDoc files.xml)]
  ++ (if files.css.getD "" ≠ "" then
        [("lwc/" ++ component_name ++ "/" ++ component_name ++ ".css",
          ArchiveDoc.textDoc (files.css.getD ""))]
      else [])
  ++ (if files.svg.getD "" ≠ "" then
        [("lwc/" ++ component_name ++ "/" ++ component_name ++ ".svg",
          ArchiveDoc.textDoc (files.svg.getD ""))]
      else [])

/-- The zip written by `upsert_custom_object`:
`package.xml` plus `objects/{Object__c}.object`. -/
def upsert_custom_object_archive (object_name label plural_label description sharing_model
    sfVersion : String) : Archive :=
  [("package.xml", ArchiveDoc.xmlDoc (_generate_package_xml [object_name] "CustomObject" sfVersion)),
   ("objects/" ++ object_name ++ ".object",
    ArchiveDoc.xmlDoc (_generate_custom_object_xml label plural_label description sharing_model "Deployed"))]

/-- The zip written by `upsert_custom_field`: `package.xml` with one
`{Object}.{Field}` member of kind `CustomField`, plus the object document
carrying the `<fields>` block. -/
def upsert_custom_field_archive (object_name field_name sfVersion : String) (cfg : FieldConfig) :
    Archive :=
  [("package.xml",
    ArchiveDoc.xmlDoc (_generate_package_xml [object_name ++ "." ++ field_name] "CustomField" sfVersion)),
   ("objects/" ++ object_name ++ ".object",
    ArchiveDoc.xmlDoc (_generate_custom_object_with_field object_name cfg))]

/-! ## Network calls and deploy internals

Every orchestrator returns its JSON payload together with the ordered list
of network calls it made, so that the "no network call before validation"
and "no duplicate deploy submission" claims are statable. -/

inductive NetCall where
  /-- A `sf.query(...)` call (core SOQL read). -/
  | soqlQuery
  /-- A `sf.toolingexecute(...)` call (Tooling API read). -/
  | toolingQuery
  /-- A `getattr(sf, obj).describe()` call. -/
  | describeCall
  /-- A `requests.post(.../metadata/deployRequest, ...)` call carrying its
  `checkOnly` deploy option. -/
  | deployPost (checkOnly : Bool)
  /-- A `requests.get(.../metadata/deployRequest/...)` call (status poll). -/
  | statusGet
  /-- Any other REST round trip (`sf.restful`, record create/update). -/
  | restCall
deriving Repr, DecidableEq

/-- True exactly for deploy submissions. -/
def isDeploySubmission : NetCall → Bool
  | NetCall.deployPost _ => true
  | _ => false

/-- The `checkOnly` flag of a deploy submission, `none` for other calls. -/
def deployCheckOnly : NetCall → Option Bool
  | NetCall.deployPost b => some b
  | _ => none

/-- Oracle for the deploy endpoint.  `submit` answers
`_execute_metadata_rest_deploy_multipart` — `Except.ok id` is a 2xx reply
carrying an `id`, `Except.error` covers transport errors and the
`"Deploy response missing id"` `ValueError` —, and `sched` answers the
status polls. -/
structure DeployEnv where
  submit : Archive → Except String String
  sched : Nat → PollResp

/-- The dict returned by the deploy internals: the poller's outcome plus the
submission's `job_id`. -/
structure DeployResult where
  success : Bool
  status : String
  details : Option String
  job_id : String
deriving Repr, DecidableEq

/-- Mirrors `deploy_apex_class_internal(sf, class_name, files_content, api_version)`:
build the archive, submit it, poll `deployRequest/{id}` with the default
timeout (300 s) and interval (5 s).  The source also computes
`success_flag = str(status.get("status", "")).lower() == "succeeded"`
(see `strict_success_flag`) into a local it never reads; the returned dict
is the poll outcome with `job_id` added. -/
def deploy_apex_class_internal (env : DeployEnv) (class_name apexBody api_version : String) :
    Except String DeployResult × List NetCall :=
  let archive := deploy_apex_class_archive class_name apexBody api_version
  match env.submit archive with
  | Except.error e => (Except.error e, [NetCall.deployPost false])
  | Except.ok depId =>
    let p := _poll_metadata_rest_deploy_status env.sched 300 5
    let trace := NetCall.deployPost false :: List.replicate p.2 NetCall.statusGet
    match p.1 with
    | Except.error e => (Except.error e, trace)
    | Except.ok o => (Except.ok ⟨o.success, o.status, o.details, depId⟩, trace)

/-- Mirrors `deploy_lwc_component_internal(sf, component_name, files_content)`:
same shape as the Apex variant, over the LWC bundle archive (the API
version comes from `getattr(sf_connection, "sf_version", "59.0")`).  The
dead `success_flag` local is the same as in the Apex variant. -/
def deploy_lwc_component_internal (env : DeployEnv) (sfVersion component_name : String)
    (files : LwcFiles) : Except String DeployResult × List NetCall :=
  let archive := deploy_lwc_component_archive sfVersion component_name files
  match env.submit archive with
  | Except.error e => (Except.error e, [NetCall.deployPost false])
  | Except.ok depId =>
    let p := _poll_metadata_rest_deploy_status env.sched 300 5
    let trace := NetCall.deployPost false :: List.replicate p.2 NetCall.statusGet
    match p.1 with
    | Except.error e => (Except.error e, trace)
    | Except.ok o => (Except.ok ⟨o.success, o.status, o.details, depId⟩, trace)

/-! ## Tool responses

Each tool returns a JSON string.  The uniform envelope (`success`,
`operation`, `message`, `job_id`, `errors`, plus entity-identifier fields
not tracked here) is `Envelope`; the short-circuit shapes
`{"success": false, "error": ...}` (also produced by every catch-all
handler) and `{"success": false, "error": ..., "details": [...]}` are the
other two constructors. -/

structure Envelope where
  success : Bool
  operation : String
  message : String
  job_id : Option String
  errors : Option String
deriving Repr, DecidableEq

inductive ToolResult where
  | ok (e : Envelope)
  | err (error : String)
  | errDetails (error : String) (details : List String)
deriving Repr, DecidableEq

/-! ## Apex orchestrators -/

/-- The name check of `create_apex_class`:
`class_name.replace("_", "").isalnum()`. -/
def apexNameValid (s : String) : Bool := pyIsAlnum (pyRemoveChar '_' s)

/-- Environment of `create_apex_class`: the `totalSize` of the existence
query plus the deploy oracle. -/
structure CreateApexEnv where
  checkTotalSize : Nat
  dep : DeployEnv

/-- Mirrors `create_apex_class(class_name, body, api_version, description)`.
Order of operations as in the source: existence query **first**, then name
validation, then deploy.  `api_version` is already its string form
(`str(api_version)` in the source); `none` selects the `"59.0"` default. -/
def create_apex_class (env : CreateApexEnv) (class_name body : String)
    (api_version : Option String) : ToolResult × List NetCall :=
  let t0 := [NetCall.soqlQuery]
  if env.checkTotalSize > 0 then
    (ToolResult.err ("Apex class '" ++ class_name ++
      "' already exists. Use upsert_apex_class to update it."), t0)
  else if !apexNameValid class_name then
    (ToolResult.err "Invalid class name. Use only alphanumeric characters and underscores.", t0)
  else
    let v := api_version.getD "59.0"
    let dres := deploy_apex_class_internal env.dep class_name body v
    ((match dres.1 with
      | Except.error e => ToolResult.err e
      | Except.ok r =>
        ToolResult.ok
          ⟨r.success, "create_apex_class",
           (if r.success then "Successfully created Apex class '" ++ class_name ++ "'"
            else "Failed to create Apex class '" ++ class_name ++ "'"),
           some r.job_id,
           (if r.success then none else r.details)⟩),
     t0 ++ dres.2)

/-- Environment of `upsert_apex_class`: the existence query's `totalSize`,
the stored `ApiVersion` of the existing record, and the deploy oracle. -/
structure UpsertApexEnv where
  checkTotalSize : Nat
  checkApiVersion : String
  dep : DeployEnv

/-- Mirrors `upsert_apex_class(class_name, body, api_version)`.  Note: the source
performs **no** name validation; it goes straight from the existence check
to the deploy. -/
def upsert_apex_class (env : UpsertApexEnv) (class_name body : String)
    (api_version : Option String) : ToolResult × List NetCall :=
  let t0 := [NetCall.soqlQuery]
  if env.checkTotalSize = 0 then
    (ToolResult.err (class_name ++ " not found (use create_apex_class to create new classes)"), t0)
  else
    let v := api_version.getD env.checkApiVersion
    let dres := deploy_apex_class_internal env.dep class_name body v
    ((match dres.1 with
      | Except.error e => ToolResult.err e
      | Except.ok r =>
        ToolResult.ok
          ⟨r.success, "update_apex_class",
           (if r.success then "Successfully updated Apex class '" ++ class_name ++ "'"
            else "Failed to update Apex class '" ++ class_name ++ "'"),
           some r.job_id,
           (if r.success then none else r.details)⟩),
     t0 ++ dres.2)

/-! ## LWC orchestrators -/

/-- The name gate shared by `create_lwc_component` and
`upsert_lwc_component`:
`not component_name or not component_name.replace("_", "").replace("-", "").isalnum()`. -/
def lwcToolNameInvalid (s : String) : Bool :=
  s.data.isEmpty || !(pyIsAlnum (pyRemoveChar '-' (pyRemoveChar '_' s)))

/-- The starter template generated by `create_lwc_component` when
`html_content` is blank. -/
def defaultLwcHtml (component_name : String) : String :=
  "<template>\n  <div class=\"" ++ component_name ++ "\">\n    <h1>Hello from " ++
  component_name ++ "!</h1>\n    <p>This is a new Lightning Web Component.</p>\n  </div>\n</template>"

/-- Mirrors `safe_class`: every non-alphanumeric character becomes `_`, and a
leading digit gets a `_` prefix. -/
def safeClassName (s : String) : String :=
  let t := String.mk (s.data.map (fun c => if c.isAlphanum then c else '_'))
  match t.data with
  | [] => t
  | c :: _ => if c.isDigit then "_" ++ t else t

/-- The starter module generated by `create_lwc_component` when `js_content`
is blank. -/
def defaultLwcJs (component_name : String) : String :=
  "import \x7b LightningElement \x7d from 'lwc';\nexport default class " ++
  safeClassName component_name ++ " extends LightningElement \x7b\x7d\n"

/-- The meta XML written inline by both `create_lwc_component` and
`upsert_lwc_component` (App/Home/Record targets, `isExposed` true). -/
def lwcToolMetaXml (api_version : String) : String :=
  "<?xml version=\"1.0\" encoding=\"UTF-8\"?>\n" ++
  "<LightningComponentBundle xmlns=\"http://soap.sforce.com/2006/04/metadata\">\n" ++
  "  <apiVersion>" ++ api_version ++ "</apiVersion>\n" ++
  "  <isExposed>true</isExposed>\n" ++
  "  <targets>\n" ++
  "    <target>lightning__AppPage</target>\n" ++
  "    <target>lightning__HomePage</target>\n" ++
  "    <target>lightning__RecordPage</target>\n" ++
  "  </targets>\n" ++
  "</LightningComponentBundle>"

/-- Environment of `create_lwc_component`: `toolingCheck` is the existence
query (`Except.error` = the Tooling call raised). -/
structure CreateLwcEnv where
  dep : DeployEnv
  sfVersion : String
  toolingCheck : Except Unit Nat

/-- Mirrors `create_lwc_component(component_name, html_content, js_content,
css_content)`.  A failed Tooling existence check is logged and ignored
(fail-open: the deploy proceeds). -/
def create_lwc_component (env : CreateLwcEnv) (component_name html_content js_content
    css_content : String) : ToolResult × List NetCall :=
  if lwcToolNameInvalid component_name then
    (ToolResult.err "Invalid component name. Use only alphanumeric characters, underscores, and hyphens.", [])
  else
    let t0 := [NetCall.toolingQuery]
    match env.toolingCheck with
    | Except.ok (n + 1) =>
      let _ := n
      (ToolResult.err ("LWC component '" ++ component_name ++
        "' already exists. Use upsert_lwc_component to update it."), t0)
    | _ =>
      let html := if pyStrip html_content = "" then defaultLwcHtml component_name else html_content
      let js := if pyStrip js_content = "" then defaultLwcJs component_name else js_content
      let files : LwcFiles :=
        ⟨html, js, lwcToolMetaXml env.sfVersion,
         (if css_content ≠ "" ∧ pyStrip css_content ≠ "" then some css_content else none), none⟩
      let dres := deploy_lwc_component_internal env.dep env.sfVersion component_name files
      ((match dres.1 with
        | Except.error e => ToolResult.err e
        | Except.ok r =>
          ToolResult.ok
            ⟨r.success, "create_lwc_component",
             (if r.success then "Successfully created LWC component '" ++ component_name ++ "'"
              else "Failed to create LWC component '" ++ component_name ++ "'"),
             some r.job_id,
             (if r.success then none else r.details)⟩),
       t0 ++ dres.2)

/-! ### `@salesforce/apex/Class.method` import scan (`upsert_lwc_component`)

`re.findall(r"@salesforce/apex/([A-Za-z_][A-Za-z0-9_]*)\.([A-Za-z_][A-Za-z0-9_]*)", js)`:
a left-to-right, non-overlapping scan. -/

def isIdentStart (c : Char) : Bool := c.isAlpha || c = '_'
def isIdentChar (c : Char) : Bool := c.isAlphanum || c = '_'

/-- Match a literal prefix, returning the remainder. -/
def matchPrefixChars : List Char → List Char → Option (List Char)
  | [], rest => some rest
  | _ :: _, [] => none
  | p :: ps, c :: cs => if p = c then matchPrefixChars ps cs else none

/-- Longest run of identifier characters, and the remainder. -/
def takeIdentRun : List Char → List Char × List Char
  | [] => ([], [])
  | c :: cs =>
    if isIdentChar c then
      let r := takeIdentRun cs
      (c :: r.1, r.2)
    else ([], c :: cs)

/-- One attempted match of the Apex-import pattern at the head of `cs`. -/
def parseApexRefAt (cs : List Char) : Option ((String × String) × List Char) :=
  match matchPrefixChars "@salesforce/apex/".data cs with
  | none => none
  | some rest =>
    match rest with
    | [] => none
    | c :: cs' =>
      if isIdentStart c then
        let r1 := takeIdentRun cs'
        match r1.2 with
        | '.' :: d :: rest2 =>
          if isIdentStart d then
            let r2 := takeIdentRun rest2
            some ((String.mk (c :: r1.1), String.mk (d :: r2.1)), r2.2)
          else none
        | _ => none
      else none

/-- Fuelled scan (the fuel, the character count, bounds the number of
single-character advances). -/
def findApexRefsAux : Nat → List Char → List (String × String)
  | 0, _ => []
  | _, [] => []
  | fuel + 1, c :: cs =>
    match parseApexRefAt (c :: cs) with
    | some (r, rest) => r :: findApexRefsAux fuel rest
    | none => findApexRefsAux fuel cs

/-- All `(class, method)` pairs imported from `@salesforce/apex/...` in a
JS module body. -/
def findApexRefs (js : String) : List (String × String) :=
  findApexRefsAux js.data.length js.data

/-- The verification loop over the scanned refs: each ref costs one Tooling
query; a raised query aborts the whole `try` block (errors gathered so far
are discarded and the tool proceeds to the deploy).  Returns the collected
error strings (or the abort) and the number of Tooling queries issued. -/
def apexRefErrors (lookup : String → Except Unit (Nat × String)) :
    List (String × String) → Except Unit (List String) × Nat
  | [] => (Except.ok [], 0)
  | (cls, method) :: rest =>
    match lookup cls with
    | Except.error _ => (Except.error (), 1)
    | Except.ok (size, body) =>
      let here : List String :=
        if size = 0 then ["Apex class '" ++ cls ++ "' not found"]
        else if !substrB method body || !substrB "@AuraEnabled" body then
          ["Apex method '" ++ cls ++ "." ++ method ++ "' not found or not @AuraEnabled"]
        else []
      let r := apexRefErrors lookup rest
      (r.1.map (fun es => here ++ es), r.2 + 1)

/-- Environment of `upsert_lwc_component`: the existence check, the
(ignored) current-resources fetch, and the per-class Apex lookup
(`Except.ok (size, body)` with the class body, `Except.error` = the Tooling
call raised). -/
structure UpsertLwcEnv where
  dep : DeployEnv
  sfVersion : String
  toolingCheck : Except Unit Nat
  apexLookup : String → Except Unit (Nat × String)

/-- Mirrors `upsert_lwc_component(component_name, html_content, js_content,
css_content)`.  A failed Tooling existence check fails **closed** (no
deploy); blank html/js are rejected; the Apex-import precheck fails the
call only when it completes with a non-empty error list. -/
def upsert_lwc_component (env : UpsertLwcEnv) (component_name html_content js_content
    css_content : String) : ToolResult × List NetCall :=
  if lwcToolNameInvalid component_name then
    (ToolResult.err "Invalid component name. Use only letters, numbers, underscores, and hyphens.", [])
  else if pyStrip html_content = "" then
    (ToolResult.err "Missing required file content: html", [])
  else if pyStrip js_content = "" then
    (ToolResult.err "Missing required file content: js", [])
  else
    match env.toolingCheck with
    | Except.error _ =>
      (ToolResult.err "Unable to verify LWC existence via Tooling API", [NetCall.toolingQuery])
    | Except.ok 0 =>
      (ToolResult.err "Component not found (use create_lwc_component to create new components)",
       [NetCall.toolingQuery])
    | Except.ok (_ + 1) =>
      -- existence check + read-only fetch of current bundle resources
      -- (its outcome is logged and discarded)
      let t1 := [NetCall.toolingQuery, NetCall.toolingQuery]
      let check := apexRefErrors env.apexLookup (findApexRefs js_content)
      let t2 := t1 ++ List.replicate check.2 NetCall.toolingQuery
      match check.1 with
      | Except.ok (e :: es) => (ToolResult.errDetails "Apex reference check failed" (e :: es), t2)
      | _ =>
        let files : LwcFiles :=
          ⟨html_content, js_content, lwcToolMetaXml env.sfVersion,
           (if css_content ≠ "" ∧ pyStrip css_content ≠ "" then some css_content else none), none⟩
        let dres := deploy_lwc_component_internal env.dep env.sfVersion component_name files
        ((match dres.1 with
          | Except.error e => ToolResult.err e
          | Except.ok r =>
            ToolResult.ok
              ⟨r.success, "update_lwc_component",
               (if r.success then "Successfully updated LWC component '" ++ component_name ++ "'"
                else "Failed to update LWC component '" ++ component_name ++ "'"),
               some r.job_id,
               (if r.success then none else r.details)⟩),
         t2 ++ dres.2)

/-! ## `upsert_custom_field` -/

/-- Nonempty all-digit character run. -/
def digitsNonEmpty (cs : List Char) : Bool := !cs.isEmpty && cs.all Char.isDigit

/-- Mirrors `re.fullmatch(r"-?\d+", v)`. -/
def isIntLit (s : String) : Bool :=
  match s.data with
  | '-' :: rest => digitsNonEmpty rest
  | cs => digitsNonEmpty cs

/-- Mirrors `re.fullmatch(r"-?\d+\.\d+", v)`. -/
def isFloatLit (s : String) : Bool :=
  let cs := match s.data with | '-' :: rest => rest | cs => cs
  match cs.span Char.isDigit with
  | (intPart, '.' :: fracPart) => !intPart.isEmpty && digitsNonEmpty fracPart
  | _ => false

/-- The value coercion of `_parse_kv`: `"true"`/`"false"`, then integer
literals, then float literals, else a plain string. -/
def coerceVal (v : String) : PyVal :=
  if pyLower v = "true" then PyVal.vBool true
  else if pyLower v = "false" then PyVal.vBool false
  else if isIntLit v then PyVal.vInt (pyToInt v)
  else if isFloatLit v then PyVal.vFloatLit v
  else PyVal.vStr v

/-- Dict insertion with overwrite (Python dict assignment, keeping first
insertion order). -/
def upsertAssoc (l : List (String × PyVal)) (k : String) (v : PyVal) :
    List (String × PyVal) :=
  if l.any (fun e => e.1 = k) then l.map (fun e => if e.1 = k then (k, v) else e)
  else l ++ [(k, v)]

/-- Mirrors `_parse_kv(s)`: split the trimmed string on `;`/`,` (the `\s*` the
regex absorbs after a separator is subsumed by the per-key strip), keep the
pairs containing `=`, split each at the first `=`, strip both sides and
coerce the value. -/
def parseKvPairs (s : String) : List (String × PyVal) :=
  (pySplit (fun c => c = ';' || c = ',') (pyStrip s)).foldl
    (fun acc part =>
      if part = "" then acc
      else if !substrB "=" part then acc
      else
        let k := pyStrip (String.mk (part.data.takeWhile (fun c => c ≠ '=')))
        let v := pyStrip (String.mk ((part.data.dropWhile (fun c => c ≠ '=')).drop 1))
        upsertAssoc acc k (coerceVal v))
    []

/-- Dict `.get` over the parsed `type_params`. -/
def tpGet (tp : List (String × PyVal)) (k : String) : Option PyVal :=
  (tp.find? (fun e => e.1 = k)).map (fun e => e.2)

/-- Dict `.get` with default. -/
def tpGetD (tp : List (String × PyVal)) (k : String) (d : PyVal) : PyVal :=
  (tpGet tp k).getD d

/-- The standard objects `upsert_custom_field` accepts as-is. -/
def stdObjectNames : List String := ["Account", "Contact", "Lead", "Opportunity", "Case"]

/-- Mirrors `_normalize_object_name`. -/
def _normalize_object_name (o : String) : String :=
  if o ∈ stdObjectNames then o
  else if pyEndsWith o "__c" then o else o ++ "__c"

/-- Mirrors `_valid_custom_name(n)`: ends with `__c`, nonempty core starting with a
letter, letters/digits/underscores only. -/
def _valid_custom_name (n : String) : Bool :=
  pyEndsWith n "__c" &&
    (match (pyDropRight n 3).data with
     | [] => false
     | c :: _ => c.isAlpha && pyIsAlnum (pyRemoveChar '_' (pyDropRight n 3)))

/-- Mirrors `_build_field_config()`: assemble the `field_config` dict from the
simple parameters.  `fullName`/`label`/`type`/`required`/`description` are
always set; the `type`-specific branches mirror the source's dispatch on
`field_type.lower()` (non-string `type_params` values reaching `referenceTo`
and friends are stringified here — no claim depends on them). -/
def _build_field_config (field_name label field_type : String) (required : Bool)
    (description : String) (tp : List (String × PyVal)) : FieldConfig :=
  let base : FieldConfig :=
    { fullName := field_name, label := label, ty := field_type,
      length := none, visibleLines := none, precision := none, scale := none,
      defaultValue := none, description := some description,
      required := some required, unique := none, externalId := none,
      picklistValues := [], referenceTo := none, relationshipLabel := none,
      relationshipName := none, deleteConstraint := none }
  let ft := pyLower field_type
  if ft = "text" ∨ ft = "email" ∨ ft = "phone" ∨ ft = "url" then
    if ft = "text" then { base with length := some (tpGetD tp "length" (PyVal.vInt 80)) }
    else base
  else if ft = "longtextarea" ∨ ft = "longtext" ∨ ft = "textarea" then
    { base with
      ty := "LongTextArea",
      length := some (tpGetD tp "length" (PyVal.vInt 32768)),
      visibleLines := some (tpGetD tp "visibleLines" (PyVal.vInt 3)) }
  else if ft = "number" ∨ ft = "currency" then
    { base with
      ty := (if ft = "currency" then "Currency" else "Number"),
      precision := some (tpGetD tp "precision" (PyVal.vInt 18)),
      scale := some (tpGetD tp "scale" (PyVal.vInt (if ft = "number" then 0 else 2))) }
  else if ft = "checkbox" then
    { base with ty := "Checkbox", defaultValue := some (tpGetD tp "default" (PyVal.vBool false)) }
  else if ft = "date" ∨ ft = "datetime" then
    { base with ty := (if ft = "datetime" then "DateTime" else "Date") }
  else if ft = "picklist" then
    let items :=
      match tpGet tp "values" with
      | some (PyVal.vStr raw) =>
        ((pySplit (fun c => c = '|' || c = ',') raw).map pyStrip).filter (fun v => v ≠ "")
      | none => []      -- `.get("values", "")` defaults to `""`, which splits to nothing
      | some _ => []    -- a non-string value yields no items
    { base with
      ty := "Picklist",
      picklistValues := items.map (fun it => ⟨it, some it, some false⟩) }
  else if ft = "lookup" ∨ ft = "masterdetail" ∨ ft = "master-detail" then
    let isMD := isPrefixCharsB "master".data ft.data
    let cfg := { base with
      ty := (if isMD then "MasterDetail" else "Lookup"),
      referenceTo := (tpGet tp "referenceTo").map pyStr,
      relationshipName := (tpGet tp "relationshipName").map pyStr,
      relationshipLabel := some (((tpGet tp "relationshipLabel").map pyStr).getD label) }
    if isMD then
      { cfg with
        required := (if required = false then some true else some required),
        deleteConstraint := (tpGet tp "deleteConstraint").map pyStr }
    else cfg
  else base

/-- Environment of `upsert_custom_field`.  `describeFields` answers
`getattr(sf, object).describe()` with the object's field API names
(`Except.error` = the describe raised, i.e. object not found).  The
best-effort FLS grant block (permission-set lookup/creation, assignment,
field-permissions upsert — reads and record DML, never a deploy
submission) is abstracted to one oracle outcome `fls` plus the number of
round trips it made. -/
structure FieldToolEnv where
  dep : DeployEnv
  sfVersion : String
  describeFields : Except Unit (List String)
  fls : Except String Unit
  flsCallCount : Nat

/-- Mirrors `upsert_custom_field(object_name, field_api_name, label, field_type,
type_params, required, description)`.  Normalize and validate names (no
network), describe the object, build the field config and archive, submit
**one** deploy with `check_only=False`, poll it, then run the best-effort
FLS grant. -/
def upsert_custom_field (env : FieldToolEnv) (object_name field_api_name label field_type
    type_params : String) (required : Bool) (description : String) :
    ToolResult × List NetCall :=
  let objectName := _normalize_object_name object_name
  let fieldName := if pyEndsWith field_api_name "__c" then field_api_name else field_api_name ++ "__c"
  if !_valid_custom_name fieldName then
    (ToolResult.err "Invalid field API name (must end with __c, start with a letter, contain only letters/numbers/underscores).", [])
  else if ¬(objectName ∈ stdObjectNames ∨ _valid_custom_name objectName = true) then
    (ToolResult.err "Invalid object API name.", [])
  else
    match env.describeFields with
    | Except.error _ => (ToolResult.err ("Object not found: " ++ objectName), [NetCall.describeCall])
    | Except.ok fields =>
      let is_update := fieldName ∈ fields
      let cfg := _build_field_config fieldName label field_type required description
        (parseKvPairs type_params)
      -- the source also renders `_generate_custom_field_xml(field_config)`
      -- into a local it never ships (the archive carries the object document)
      let _fieldXml := _generate_custom_field_xml cfg
      let archive := upsert_custom_field_archive objectName fieldName env.sfVersion cfg
      let t0 := [NetCall.describeCall]
      let op := if is_update then "update_custom_field" else "create_custom_field"
      match env.dep.submit archive with
      | Except.error e => (ToolResult.err e, t0 ++ [NetCall.deployPost false])
      | Except.ok depId =>
        let p := _poll_metadata_rest_deploy_status env.dep.sched 300 5
        let t1 := t0 ++ NetCall.deployPost false :: List.replicate p.2 NetCall.statusGet
        match p.1 with
        | Except.error e => (ToolResult.err e, t1)
        | Except.ok o =>
          if !o.success then
            (ToolResult.ok ⟨false, op, "Field deployment failed", some depId, o.details⟩, t1)
          else
            let t2 := t1 ++ List.replicate env.flsCallCount NetCall.restCall
            match env.fls with
            | Except.error fe =>
              (ToolResult.ok ⟨true, op,
                "Field deployed, but FLS grant step encountered an error: " ++ fe,
                some depId, none⟩, t2)
            | Except.ok _ =>
              (ToolResult.ok ⟨true, op,
                ("Successfully " ++ (if is_update then "updated" else "created") ++ " field " ++
                 fieldName ++ " on " ++ objectName ++
                 " and granted read/edit via 'System Admin' Permission Set"),
                some depId, none⟩, t2)

/-! ## Poll-loop lemmas -/

/-- If every scheduled response is non-terminal (2xx, `done` false), the
loop runs the clock out and returns the synthesized timeout dict. -/
theorem pollLoop_timeout (sched : Nat → PollResp) (timeout interval : Nat)
    (hNT : ∀ j, ∃ s d, sched j = PollResp.result false s d) :
    ∀ fuel elapsed i, timeout < elapsed + fuel * interval →
      (pollLoop sched timeout interval fuel elapsed i).1 =
        Except.ok ⟨false, "Timeout", none⟩ := by
  intro fuel
  induction fuel with
  | zero =>
    intro elapsed i h
    simp only [Nat.zero_mul, Nat.add_zero] at h
    unfold pollLoop
    simp [h]
  | succ n ih =>
    intro elapsed i h
    unfold pollLoop
    by_cases he : timeout < elapsed
    · simp [he]
    · obtain ⟨s, d, hs⟩ := hNT i
      simp [he, hs]
      exact ih (elapsed + interval) (i + 1)
        (by rw [Nat.succ_mul] at h; omega)

/-- Any `Except.ok` outcome of the loop satisfies
`success = pollSuccessStatus status` (the timeout dict does so because
`"Timeout"` is not a success status; terminal dicts do so by
construction). -/
theorem pollLoop_ok_success (sched : Nat → PollResp) (timeout interval : Nat) :
    ∀ fuel elapsed i o, (pollLoop sched timeout interval fuel elapsed i).1 = Except.ok o →
      o.success = pollSuccessStatus o.status := by
  intro fuel
  induction fuel with
  | zero =>
    intro elapsed i o h
    unfold pollLoop at h
    by_cases he : timeout < elapsed
    · simp [he] at h
      rw [← h]
      decide
    · simp [he] at h
  | succ n ih =>
    intro elapsed i o h
    unfold pollLoop at h
    by_cases he : timeout < elapsed
    · simp [he] at h
      rw [← h]
      decide
    · simp only [he, if_false] at h
      cases hs : sched i with
      | transportError => rw [hs] at h; simp at h
      | result done status details =>
        rw [hs] at h
        by_cases hd : done
        · simp [hd] at h
          rw [← h]
        · simp only [hd, if_false] at h
          exact ih (elapsed + interval) (i + 1) o h

/-- A transport failure of the `k`-th status request, reached before the
timeout through non-terminal responses, escapes the loop as an exception. -/
theorem pollLoop_transport_error (sched : Nat → PollResp) (timeout interval : Nat) :
    ∀ k fuel elapsed i, k < fuel →
      elapsed + k * interval ≤ timeout →
      (∀ j, j < k → ∃ s d, sched (i + j) = PollResp.result false s d) →
      sched (i + k) = PollResp.transportError →
      pollLoop sched timeout interval fuel elapsed i =
        (Except.error "HTTPError", i + k + 1) := by
  intro k
  induction k with
  | zero =>
    intro fuel elapsed i hf ht _ herr
    match fuel, hf with
    | fuel + 1, _ =>
      unfold pollLoop
      have he : ¬timeout < elapsed := by omega
      simp only [Nat.add_zero] at herr
      simp [he, herr]
  | succ m ih =>
    intro fuel elapsed i hf ht hnt herr
    match fuel, hf with
    | fuel + 1, hf =>
      unfold pollLoop
      have hee : elapsed ≤ elapsed + (m + 1) * interval := Nat.le_add_right _ _
      have he : ¬timeout < elapsed := by omega
      obtain ⟨s, d, hs⟩ := hnt 0 (Nat.succ_pos m)
      rw [Nat.add_zero] at hs
      simp [he, hs]
      have hres := ih fuel (elapsed + interval) (i + 1)
        (Nat.lt_of_succ_lt_succ hf)
        (by rw [Nat.succ_mul] at ht; omega)
        (fun j hj => by
          obtain ⟨s', d', h'⟩ := hnt (j + 1) (Nat.succ_lt_succ hj)
          exact ⟨s', d', by rw [show i + 1 + j = i + (j + 1) by omega]; exact h'⟩)
        (by rw [show i + 1 + m = i + (m + 1) by omega]; exact herr)
      rw [hres, Prod.mk.injEq]
      exact ⟨rfl, by omega⟩

/-- With a positive interval, the entry point's fuel strictly dominates the
number of iterations available before the timeout check fires. -/
theorem fuel_dominates (timeout interval : Nat) (hpos : 1 ≤ interval) :
    timeout < 0 + (timeout / max interval 1 + 2) * interval := by
  rw [Nat.max_eq_left hpos]
  have h1 : interval * (timeout / interval) + timeout % interval = timeout :=
    Nat.div_add_mod timeout interval
  have h2 : timeout % interval < interval := Nat.mod_lt _ (by omega)
  have h3 : (timeout / interval + 2) * interval
      = interval * (timeout / interval) + 2 * interval := by ring
  omega

/-- Claim C5 — if no status response ever reports `done = true`, the poller
stops once the timeout elapses and returns the synthesized
`{"success": False, "status": "Timeout"}` dict by normal return (an
`Except.ok`), rather than raising. -/
theorem C5_poller_timeout_returns (sched : Nat → PollResp) (timeout interval : Nat)
    (hpos : 1 ≤ interval)
    (hNT : ∀ j, ∃ s d, sched j = PollResp.result false s d) :
    (_poll_metadata_rest_deploy_status sched timeout interval).1 =
      Except.ok ⟨false, "Timeout", none⟩ := by
  unfold _poll_metadata_rest_deploy_status
  exact pollLoop_timeout sched timeout interval hNT _ 0 0 (fuel_dominates timeout interval hpos)

/-- Witness for C5 at a concrete schedule that always answers
`InProgress`. -/
theorem C5_witness :
    (_poll_metadata_rest_deploy_status (fun _ => PollResp.result false "InProgress" none) 300 5).1 =
      Except.ok ⟨false, "Timeout", none⟩ :=
  C5_poller_timeout_returns (fun _ => PollResp.result false "InProgress" none) 300 5
    (by decide) (fun _ => ⟨"InProgress", none, rfl⟩)

/-- Schedule whose second status request fails at the transport level. -/
def c1Sched : Nat → PollResp := fun i =>
  if i = 0 then PollResp.result false "InProgress" none else PollResp.transportError

/-- Claim C1, counterexample — with the default timeout (300 s) and interval
(5 s), a single transport failure on the second status request (5 s in,
far before the timeout) makes `_poll_metadata_rest_deploy_status` raise
(`Except.error`): the poller does **not** retry at the next interval
boundary, contradicting the claim that it never raises out of the poll on
one transport error. -/
theorem C1_counterexample :
    (_poll_metadata_rest_deploy_status c1Sched 300 5).1 = Except.error "HTTPError" := by
  rfl

/-- Claim C1, amended — a transport-level failure (non-2xx or connection
error) of any status request reached before the overall timeout is **not**
treated as transient: `raise_for_status` is uncaught, so the exception
propagates out of the poll at once (to each orchestrator's catch-all
handler); the poller never converts it into a timeout result. -/
theorem C1_transport_error_raises (sched : Nat → PollResp) (timeout interval k : Nat)
    (hpos : 1 ≤ interval)
    (hk : k * interval ≤ timeout)
    (hNT : ∀ j, j < k → ∃ s d, sched j = PollResp.result false s d)
    (herr : sched k = PollResp.transportError) :
    (_poll_metadata_rest_deploy_status sched timeout interval).1 = Except.error "HTTPError" := by
  unfold _poll_metadata_rest_deploy_status
  rw [Nat.max_eq_left hpos]
  rw [pollLoop_transport_error sched timeout interval k (timeout / interval + 2) 0 0 ?_ ?_ ?_ ?_]
  · have : k ≤ timeout / interval := (Nat.le_div_iff_mul_le (by omega)).mpr hk
    omega
  · omega
  · intro j hj
    simpa using hNT j hj
  · simpa using herr

/-- Witness for the amended C1 at the concrete schedule `c1Sched`. -/
theorem C1_witness :
    (_poll_metadata_rest_deploy_status c1Sched 300 5).1 = Except.error "HTTPError" :=
  C1_transport_error_raises c1Sched 300 5 1 (by decide) (by decide)
    (fun j hj => by
      interval_cases j
      exact ⟨"InProgress", none, rfl⟩)
    (by decide)

/-! ## Deploy-internal lemmas -/

theorem replicate_statusGet_no_deploy (n : Nat) :
    (List.replicate n NetCall.statusGet).filter isDeploySubmission = [] := by
  induction n with
  | zero => rfl
  | succ m ih => simp [List.replicate_succ, List.filter_cons, isDeploySubmission, ih]

/-- The Apex deploy internal always performs exactly one deploy submission
(with `checkOnly = False`), followed only by status polls. -/
theorem deploy_apex_internal_trace (env : DeployEnv) (c b v : String) :
    ∃ n, (deploy_apex_class_internal env c b v).2 =
      NetCall.deployPost false :: List.replicate n NetCall.statusGet := by
  cases hsub : env.submit (deploy_apex_class_archive c b v) with
  | error e => exact ⟨0, by simp [deploy_apex_class_internal, hsub]⟩
  | ok depId =>
    cases h : (_poll_metadata_rest_deploy_status env.sched 300 5).1 with
    | error e =>
      exact ⟨(_poll_metadata_rest_deploy_status env.sched 300 5).2,
        by simp [deploy_apex_class_internal, hsub, h]⟩
    | ok o =>
      exact ⟨(_poll_metadata_rest_deploy_status env.sched 300 5).2,
        by simp [deploy_apex_class_internal, hsub, h]⟩

theorem deploy_apex_internal_filter (env : DeployEnv) (c b v : String) :
    (deploy_apex_class_internal env c b v).2.filter isDeploySubmission =
      [NetCall.deployPost false] := by
  obtain ⟨n, hn⟩ := deploy_apex_internal_trace env c b v
  rw [hn]
  simp [List.filter_cons, isDeploySubmission, replicate_statusGet_no_deploy n]

/-- The LWC deploy internal always performs exactly one deploy submission
(with `checkOnly = False`), followed only by status polls. -/
theorem deploy_lwc_internal_trace (env : DeployEnv) (sv n : String) (f : LwcFiles) :
    ∃ m, (deploy_lwc_component_internal env sv n f).2 =
      NetCall.deployPost false :: List.replicate m NetCall.statusGet := by
  cases hsub : env.submit (deploy_lwc_component_archive sv n f) with
  | error e => exact ⟨0, by simp [deploy_lwc_component_internal, hsub]⟩
  | ok depId =>
    cases h : (_poll_metadata_rest_deploy_status env.sched 300 5).1 with
    | error e =>
      exact ⟨(_poll_metadata_rest_deploy_status env.sched 300 5).2,
        by simp [deploy_lwc_component_internal, hsub, h]⟩
    | ok o =>
      exact ⟨(_poll_metadata_rest_deploy_status env.sched 300 5).2,
        by simp [deploy_lwc_component_internal, hsub, h]⟩

theorem deploy_lwc_internal_filter (env : DeployEnv) (sv n : String) (f : LwcFiles) :
    (deploy_lwc_component_internal env sv n f).2.filter isDeploySubmission =
      [NetCall.deployPost false] := by
  obtain ⟨m, hm⟩ := deploy_lwc_internal_trace env sv n f
  rw [hm]
  simp [List.filter_cons, isDeploySubmission, replicate_statusGet_no_deploy m]

/-- Claim C8 — the poller classifies both `"Succeeded"` and
`"SucceededPartial"` as success; the strict flag computed by the deploy
internals (`strict_success_flag`, which rejects `"SucceededPartial"`) is
dead: every result the internals return satisfies
`success = pollSuccessStatus status`, so a partially succeeded deploy is
reported as a full success. -/
theorem C8_partial_success_is_success :
    pollSuccessStatus "Succeeded" = true ∧
    pollSuccessStatus "SucceededPartial" = true ∧
    strict_success_flag "Succeeded" = true ∧
    strict_success_flag "SucceededPartial" = false ∧
    (∀ env c b v r, (deploy_apex_class_internal env c b v).1 = Except.ok r →
      r.success = pollSuccessStatus r.status) ∧
    (∀ env sv n f r, (deploy_lwc_component_internal env sv n f).1 = Except.ok r →
      r.success = pollSuccessStatus r.status) := by
  refine ⟨by decide, by decide, by decide, by decide, ?_, ?_⟩
  · intro env c b v r h
    cases hsub : env.submit (deploy_apex_class_archive c b v) with
    | error e => simp [deploy_apex_class_internal, hsub] at h
    | ok depId =>
      cases hp : (_poll_metadata_rest_deploy_status env.sched 300 5).1 with
      | error e => simp [deploy_apex_class_internal, hsub, hp] at h
      | ok o =>
        simp [deploy_apex_class_internal, hsub, hp] at h
        have := pollLoop_ok_success env.sched 300 5 _ 0 0 o hp
        rw [← h]
        exact this
  · intro env sv n f r h
    cases hsub : env.submit (deploy_lwc_component_archive sv n f) with
    | error e => simp [deploy_lwc_component_internal, hsub] at h
    | ok depId =>
      cases hp : (_poll_metadata_rest_deploy_status env.sched 300 5).1 with
      | error e => simp [deploy_lwc_component_internal, hsub, hp] at h
      | ok o =>
        simp [deploy_lwc_component_internal, hsub, hp] at h
        have := pollLoop_ok_success env.sched 300 5 _ 0 0 o hp
        rw [← h]
        exact this

/-- A deploy oracle whose job terminates with status `SucceededPartial`. -/
def c8DepEnv : DeployEnv :=
  ⟨fun _ => Except.ok "JOB", fun _ => PollResp.result true "SucceededPartial" none⟩

/-- Witness for C8: a `SucceededPartial` Apex deploy comes back with
`success = true` even though the strict flag is false there. -/
theorem C8_witness :
    (⟨true, "SucceededPartial", none, "JOB"⟩ : DeployResult).success
      = pollSuccessStatus "SucceededPartial" ∧
    strict_success_flag "SucceededPartial" = false :=
  ⟨C8_partial_success_is_success.2.2.2.2.1 c8DepEnv "Foo" "body" "59.0"
      ⟨true, "SucceededPartial", none, "JOB"⟩ (by rfl),
   C8_partial_success_is_success.2.2.2.1⟩

/-! ## Orchestrator claims -/

/-- Claim C4 — when the existence check reports that the entity already
exists, a create orchestrator returns the conflict error and its full
network trace is the single existence read: no deploy is ever submitted
(the LWC part also needs the name gate to pass, since validation runs
first there). -/
theorem C4_create_conflict_no_deploy :
    (∀ (env : CreateApexEnv) (n b : String) (v : Option String), 0 < env.checkTotalSize →
      create_apex_class env n b v =
        (ToolResult.err ("Apex class '" ++ n ++ "' already exists. Use upsert_apex_class to update it."),
         [NetCall.soqlQuery])) ∧
    (∀ (env : CreateLwcEnv) (n h j c : String) (m : Nat),
      lwcToolNameInvalid n = false →
      env.toolingCheck = Except.ok (m + 1) →
      create_lwc_component env n h j c =
        (ToolResult.err ("LWC component '" ++ n ++ "' already exists. Use upsert_lwc_component to update it."),
         [NetCall.toolingQuery])) := by
  constructor
  · intro env n b v h
    unfold create_apex_class
    simp [h]
  · intro env n h j c m hv hT
    unfold create_lwc_component
    simp [hv, hT]

/-- Deploy oracle used by the concrete C4 environments. -/
def c4Dep : DeployEnv := ⟨fun _ => Except.ok "JOB", fun _ => PollResp.result true "Succeeded" none⟩

def c4ApexEnv : CreateApexEnv := ⟨1, c4Dep⟩

def c4LwcEnv : CreateLwcEnv := ⟨c4Dep, "59.0", Except.ok 1⟩

/-- Witness for C4 at concrete environments whose existence checks report
one existing record. -/
theorem C4_witness :
    create_apex_class c4ApexEnv "InvoiceService" "public class I" none =
      (ToolResult.err "Apex class 'InvoiceService' already exists. Use upsert_apex_class to update it.",
       [NetCall.soqlQuery]) ∧
    create_lwc_component c4LwcEnv "accountHeader" "" "" "" =
      (ToolResult.err "LWC component 'accountHeader' already exists. Use upsert_lwc_component to update it.",
       [NetCall.toolingQuery]) :=
  ⟨C4_create_conflict_no_deploy.1 c4ApexEnv "InvoiceService" "public class I" none (by decide),
   C4_create_conflict_no_deploy.2 c4LwcEnv "accountHeader" "" "" "" 0 (by decide) rfl⟩

def c2Dep : DeployEnv := ⟨fun _ => Except.ok "JOB", fun _ => PollResp.result true "Succeeded" none⟩

def c2ApexEnv : CreateApexEnv := ⟨0, c2Dep⟩

/-- Claim C2, counterexample — `create_apex_class` runs its existence query
**before** validating the name, so the invalid identifier `"My-Class"`
(hyphen in an Apex class name) is rejected with the validation failure only
after one network call: the network-call count at the validation failure is
1, not 0. -/
theorem C2_counterexample :
    (create_apex_class c2ApexEnv "My-Class" "public class C" none).1 =
      ToolResult.err "Invalid class name. Use only alphanumeric characters and underscores." ∧
    (create_apex_class c2ApexEnv "My-Class" "public class C" none).2.length = 1 :=
  ⟨rfl, rfl⟩

/-- Claim C2, amended — `create_lwc_component`, `upsert_lwc_component` and
`upsert_custom_field` do return the validation failure with **zero**
network calls; but `create_apex_class` runs the existence query first, so
an invalid name incurs exactly one network call before the validation
failure; and `upsert_apex_class` applies no naming-grammar validation at
all — whenever the class exists it submits a deploy regardless of the
identifier. -/
theorem C2_validation_before_network :
    (∀ (env : CreateLwcEnv) (n h j c : String), lwcToolNameInvalid n = true →
      create_lwc_component env n h j c =
        (ToolResult.err "Invalid component name. Use only alphanumeric characters, underscores, and hyphens.",
         [])) ∧
    (∀ (env : UpsertLwcEnv) (n h j c : String), lwcToolNameInvalid n = true →
      upsert_lwc_component env n h j c =
        (ToolResult.err "Invalid component name. Use only letters, numbers, underscores, and hyphens.",
         [])) ∧
    (∀ (env : FieldToolEnv) (o fa l ft tp : String) (r : Bool) (d : String),
      _valid_custom_name (if pyEndsWith fa "__c" then fa else fa ++ "__c") = false →
      upsert_custom_field env o fa l ft tp r d =
        (ToolResult.err "Invalid field API name (must end with __c, start with a letter, contain only letters/numbers/underscores).",
         [])) ∧
    (∀ (env : CreateApexEnv) (n b : String) (v : Option String),
      env.checkTotalSize = 0 → apexNameValid n = false →
      create_apex_class env n b v =
        (ToolResult.err "Invalid class name. Use only alphanumeric characters and underscores.",
         [NetCall.soqlQuery])) ∧
    (∀ (env : UpsertApexEnv) (n b : String) (v : Option String), 0 < env.checkTotalSize →
      (upsert_apex_class env n b v).2.filter isDeploySubmission = [NetCall.deployPost false]) := by
  refine ⟨?_, ?_, ?_, ?_, ?_⟩
  · intro env n h j c hv
    unfold create_lwc_component
    simp [hv]
  · intro env n h j c hv
    unfold upsert_lwc_component
    simp [hv]
  · intro env o fa l ft tp r d hv
    unfold upsert_custom_field
    simp [hv]
  · intro env n b v h0 hv
    unfold create_apex_class
    simp [h0, hv]
  · intro env n b v h
    have h0 : ¬env.checkTotalSize = 0 := by omega
    have hfil := deploy_apex_internal_filter env.dep n b (v.getD env.checkApiVersion)
    unfold upsert_apex_class
    simp [h0, List.filter_append, hfil, isDeploySubmission]

def c2LwcCreateEnv : CreateLwcEnv := ⟨c2Dep, "59.0", Except.ok 0⟩

def c2LwcUpsertEnv : UpsertLwcEnv :=
  ⟨c2Dep, "59.0", Except.ok 1, fun _ => Except.ok (1, "@AuraEnabled ping")⟩

def c2FieldEnv : FieldToolEnv := ⟨c2Dep, "59.0", Except.ok ["Name"], Except.ok (), 4⟩

def c2UpsertApexEnv : UpsertApexEnv := ⟨1, "59.0", c2Dep⟩

/-- Witness for the amended C2 at concrete environments and concrete
invalid identifiers. -/
theorem C2_witness :
    create_lwc_component c2LwcCreateEnv "my comp" "" "" "" =
      (ToolResult.err "Invalid component name. Use only alphanumeric characters, underscores, and hyphens.",
       []) ∧
    upsert_lwc_component c2LwcUpsertEnv "my comp" "<template/>" "js" "" =
      (ToolResult.err "Invalid component name. Use only letters, numbers, underscores, and hyphens.",
       []) ∧
    upsert_custom_field c2FieldEnv "Invoice__c" "My-Field" "My Field" "Text" "" false "" =
      (ToolResult.err "Invalid field API name (must end with __c, start with a letter, contain only letters/numbers/underscores).",
       []) ∧
    create_apex_class c2ApexEnv "My-Class" "public class C" none =
      (ToolResult.err "Invalid class name. Use only alphanumeric characters and underscores.",
       [NetCall.soqlQuery]) ∧
    (upsert_apex_class c2UpsertApexEnv "My-Class" "public class C" none).2.filter isDeploySubmission =
      [NetCall.deployPost false] :=
  ⟨C2_validation_before_network.1 c2LwcCreateEnv "my comp" "" "" "" (by decide),
   C2_validation_before_network.2.1 c2LwcUpsertEnv "my comp" "<template/>" "js" "" (by decide),
   C2_validation_before_network.2.2.1 c2FieldEnv "Invoice__c" "My-Field" "My Field" "Text" "" false ""
     (by decide),
   C2_validation_before_network.2.2.2.1 c2ApexEnv "My-Class" "public class C" none rfl (by decide),
   C2_validation_before_network.2.2.2.2 c2UpsertApexEnv "My-Class" "public class C" none (by decide)⟩

/-- Claim C10 — on an exception from the Tooling existence check,
`create_lwc_component` proceeds to the deploy (fail-open: the submission
still happens, exactly once), while `upsert_lwc_component` returns the
"Unable to verify" error after only the existence read and submits nothing
(fail-closed). -/
theorem C10_existence_check_asymmetry :
    (∀ (env : CreateLwcEnv) (n h j c : String), lwcToolNameInvalid n = false →
      env.toolingCheck = Except.error () →
      (create_lwc_component env n h j c).2.filter isDeploySubmission = [NetCall.deployPost false]) ∧
    (∀ (env : UpsertLwcEnv) (n h j c : String),
      lwcToolNameInvalid n = false → pyStrip h ≠ "" → pyStrip j ≠ "" →
      env.toolingCheck = Except.error () →
      upsert_lwc_component env n h j c =
        (ToolResult.err "Unable to verify LWC existence via Tooling API", [NetCall.toolingQuery])) := by
  constructor
  · intro env n h j c hv hT
    have hfil := deploy_lwc_internal_filter env.dep env.sfVersion n
    unfold create_lwc_component
    simp [hv, hT, List.filter_append, hfil, isDeploySubmission]
  · intro env n h j c hv hh hj hT
    unfold upsert_lwc_component
    simp [hv, hh, hj, hT]

def c10Dep : DeployEnv := ⟨fun _ => Except.ok "JOB", fun _ => PollResp.result true "Succeeded" none⟩

def c10CreateEnv : CreateLwcEnv := ⟨c10Dep, "59.0", Except.error ()⟩

def c10UpsertEnv : UpsertLwcEnv :=
  ⟨c10Dep, "59.0", Except.error (), fun _ => Except.ok (1, "@AuraEnabled ping")⟩

/-- Witness for C10 at concrete environments whose Tooling existence check
raises. -/
theorem C10_witness :
    (create_lwc_component c10CreateEnv "accountHeader" "<template/>" "js" "").2.filter
      isDeploySubmission = [NetCall.deployPost false] ∧
    upsert_lwc_component c10UpsertEnv "accountHeader" "<template/>" "js" "" =
      (ToolResult.err "Unable to verify LWC existence via Tooling API", [NetCall.toolingQuery]) :=
  ⟨C10_existence_check_asymmetry.1 c10CreateEnv "accountHeader" "<template/>" "js" ""
     (by decide) rfl,
   C10_existence_check_asymmetry.2 c10UpsertEnv "accountHeader" "<template/>" "js" ""
     (by decide) (by decide) (by decide) rfl⟩

/-! ## The uniform envelope's `errors` field (claim C9) -/

/-- The claimed envelope invariant: whenever a tool returns the uniform
envelope, `errors` is `null` if `success` is true, and a non-null `errors`
only occurs with `success` false. -/
def envelopeErrorsOk (r : ToolResult) : Prop :=
  ∀ e, r = ToolResult.ok e →
    (e.success = true → e.errors = none) ∧ (e.errors ≠ none → e.success = false)

theorem envelopeErrorsOk_err (msg : String) : envelopeErrorsOk (ToolResult.err msg) :=
  fun _ he => ToolResult.noConfusion he

theorem envelopeErrorsOk_errDetails (msg : String) (ds : List String) :
    envelopeErrorsOk (ToolResult.errDetails msg ds) :=
  fun _ he => ToolResult.noConfusion he

/-- The shape every deploy-backed envelope takes:
`errors = details if not success else None`. -/
theorem envelopeErrorsOk_mk (s : Bool) (op msg : String) (j d : Option String) :
    envelopeErrorsOk (ToolResult.ok ⟨s, op, msg, j, if s then none else d⟩) := by
  intro e he
  cases he
  cases s <;> simp

/-- The field tool's deploy-failure envelope (`success` false, `errors`
carrying the diagnostics). -/
theorem envelopeErrorsOk_failed (op msg : String) (j d : Option String) :
    envelopeErrorsOk (ToolResult.ok ⟨false, op, msg, j, d⟩) := by
  intro e he
  cases he
  simp

/-- The field tool's post-deploy envelopes (`success` true, `errors`
`None`). -/
theorem envelopeErrorsOk_success_none (op msg : String) (j : Option String) :
    envelopeErrorsOk (ToolResult.ok ⟨true, op, msg, j, none⟩) := by
  intro e he
  cases he
  simp

/-- Claim C9 — every create/update orchestrator that returns the uniform
envelope sets `errors` to `None` exactly when `success` is true and
carries the deploy diagnostics in `errors` only when `success` is
false. -/
theorem C9_errors_null_iff_success :
    (∀ (env : CreateApexEnv) (n b : String) (v : Option String),
      envelopeErrorsOk (create_apex_class env n b v).1) ∧
    (∀ (env : UpsertApexEnv) (n b : String) (v : Option String),
      envelopeErrorsOk (upsert_apex_class env n b v).1) ∧
    (∀ (env : CreateLwcEnv) (n h j c : String),
      envelopeErrorsOk (create_lwc_component env n h j c).1) ∧
    (∀ (env : UpsertLwcEnv) (n h j c : String),
      envelopeErrorsOk (upsert_lwc_component env n h j c).1) ∧
    (∀ (env : FieldToolEnv) (o fa l ft tp : String) (r : Bool) (d : String),
      envelopeErrorsOk (upsert_custom_field env o fa l ft tp r d).1) := by
  refine ⟨?_, ?_, ?_, ?_, ?_⟩
  · intro env n b v
    unfold create_apex_class
    dsimp only
    repeat'
      first
      | exact envelopeErrorsOk_err _
      | exact envelopeErrorsOk_errDetails _ _
      | exact envelopeErrorsOk_mk _ _ _ _ _
      | exact envelopeErrorsOk_failed _ _ _ _
      | exact envelopeErrorsOk_success_none _ _ _
      | split
  · intro env n b v
    unfold upsert_apex_class
    dsimp only
    repeat'
      first
      | exact envelopeErrorsOk_err _
      | exact envelopeErrorsOk_errDetails _ _
      | exact envelopeErrorsOk_mk _ _ _ _ _
      | exact envelopeErrorsOk_failed _ _ _ _
      | exact envelopeErrorsOk_success_none _ _ _
      | split
  · intro env n h j c
    unfold create_lwc_component
    dsimp only
    repeat'
      first
      | exact envelopeErrorsOk_err _
      | exact envelopeErrorsOk_errDetails _ _
      | exact envelopeErrorsOk_mk _ _ _ _ _
      | exact envelopeErrorsOk_failed _ _ _ _
      | exact envelopeErrorsOk_success_none _ _ _
      | split
  · intro env n h j c
    unfold upsert_lwc_component
    dsimp only
    repeat'
      first
      | exact envelopeErrorsOk_err _
      | exact envelopeErrorsOk_errDetails _ _
      | exact envelopeErrorsOk_mk _ _ _ _ _
      | exact envelopeErrorsOk_failed _ _ _ _
      | exact envelopeErrorsOk_success_none _ _ _
      | split
  · intro env o fa l ft tp r d
    unfold upsert_custom_field
    dsimp only
    repeat'
      first
      | exact envelopeErrorsOk_err _
      | exact envelopeErrorsOk_errDetails _ _
      | exact envelopeErrorsOk_mk _ _ _ _ _
      | exact envelopeErrorsOk_failed _ _ _ _
      | exact envelopeErrorsOk_success_none _ _ _
      | split

def c9Dep : DeployEnv := ⟨fun _ => Except.ok "JOB", fun _ => PollResp.result true "Succeeded" none⟩

def c9ApexEnv : CreateApexEnv := ⟨0, c9Dep⟩

/-- Witness for C9: a successful concrete create has `errors = None`. -/
theorem C9_witness :
    (Envelope.mk true "create_apex_class" "Successfully created Apex class 'Foo'"
      (some "JOB") none).errors = none :=
  ((C9_errors_null_iff_success.1 c9ApexEnv "Foo" "public class Foo" none)
    ⟨true, "create_apex_class", "Successfully created Apex class 'Foo'", some "JOB", none⟩
    (by rfl)).1 rfl

/-! ## Archive claims (C6) -/

theorem countTag_elem (t tag : String) (children : List XmlNode) :
    countTag t (XmlNode.elem tag children) =
      (if tag = t then 1 else 0) + countTagL t children := rfl

theorem countTagL_nil (t : String) : countTagL t [] = 0 := rfl

theorem countTagL_cons (t : String) (n : XmlNode) (ns : List XmlNode) :
    countTagL t (n :: ns) = countTag t n + countTagL t ns := rfl

theorem countTagL_append (t : String) (a b : List XmlNode) :
    countTagL t (a ++ b) = countTagL t a + countTagL t b := by
  induction a with
  | nil => simp [countTagL_nil]
  | cons x xs ih => simp [countTagL_cons, ih]; omega

theorem countTag_leaf (t tag s : String) :
    countTag t (leaf tag s) = if tag = t then 1 else 0 := by
  simp [leaf, countTag_elem, countTagL_cons, countTagL_nil, countTag]

theorem countTagL_members_map (ms : List String) :
    countTagL "members" (ms.map (fun m => leaf "members" m)) = ms.length := by
  induction ms with
  | nil => simp [countTagL_nil]
  | cons x xs ih => simp [countTagL_cons, countTag_leaf, ih]; omega

/-- A manifest built from `members` declares exactly `members.length`
members. -/
theorem manifest_members_count (members : List String) (ty v : String) :
    manifestMemberCount (_generate_package_xml members ty v) = members.length := by
  simp [manifestMemberCount, _generate_package_xml, countTag_elem, countTagL_cons,
    countTagL_nil, countTagL_append, countTagL_members_map, countTag_leaf]

theorem classes_path_ne (x y : String) : ("classes/" ++ x ++ y) ≠ "package.xml" := by
  intro he
  have h2 := congrArg String.data he
  simp only [String.data_append] at h2
  simp at h2

theorem lwc_path_ne (x y z : String) : ("lwc/" ++ x ++ "/" ++ y ++ z) ≠ "package.xml" := by
  intro he
  have h2 := congrArg String.data he
  simp only [String.data_append] at h2
  simp at h2

theorem objects_path_ne (x y : String) : ("objects/" ++ x ++ y) ≠ "package.xml" := by
  intro he
  have h2 := congrArg String.data he
  simp only [String.data_append] at h2
  simp at h2

/-- Claim C6, counterexample — the Apex package at a concrete input: the
archive has exactly one manifest entry declaring 1 member, but 3 entries in
total (the class file **and** its `.cls-meta.xml` ride along), so the
declared member count is 1 while "entries minus the manifest" is 2. -/
theorem C6_counterexample :
    manifestEntryCount (deploy_apex_class_archive "Foo" "public class Foo" "59.0") = 1 ∧
    declaredMemberTotal (deploy_apex_class_archive "Foo" "public class Foo" "59.0") = 1 ∧
    (deploy_apex_class_archive "Foo" "public class Foo" "59.0").length = 3 ∧
    declaredMemberTotal (deploy_apex_class_archive "Foo" "public class Foo" "59.0") ≠
      (deploy_apex_class_archive "Foo" "public class Foo" "59.0").length - 1 := by
  refine ⟨by decide, by decide, by decide, by decide⟩

/-- Claim C6, amended — every builder emits exactly one manifest entry; the
custom-object and custom-field archives satisfy
`declared members = entries - 1`, but the Apex archive always has 3
entries against 1 declared member (class body + meta file), and the LWC
archive has `4 + css + svg` entries against 1 declared member (one per
bundle asset). -/
theorem C6_manifest_invariant :
    (∀ c b v, manifestEntryCount (deploy_apex_class_archive c b v) = 1 ∧
      declaredMemberTotal (deploy_apex_class_archive c b v) = 1 ∧
      (deploy_apex_class_archive c b v).length = 3) ∧
    (∀ sv n f, manifestEntryCount (deploy_lwc_component_archive sv n f) = 1 ∧
      declaredMemberTotal (deploy_lwc_component_archive sv n f) = 1 ∧
      (deploy_lwc_component_archive sv n f).length =
        4 + (if f.css.getD "" ≠ "" then 1 else 0) + (if f.svg.getD "" ≠ "" then 1 else 0)) ∧
    (∀ o l p dsc sm sv, manifestEntryCount (upsert_custom_object_archive o l p dsc sm sv) = 1 ∧
      declaredMemberTotal (upsert_custom_object_archive o l p dsc sm sv) =
        (upsert_custom_object_archive o l p dsc sm sv).length - 1) ∧
    (∀ o fn sv cfg, manifestEntryCount (upsert_custom_field_archive o fn sv cfg) = 1 ∧
      declaredMemberTotal (upsert_custom_field_archive o fn sv cfg) =
        (upsert_custom_field_archive o fn sv cfg).length - 1) := by
  refine ⟨?_, ?_, ?_, ?_⟩
  · intro c b v
    refine ⟨?_, ?_, rfl⟩
    · simp [manifestEntryCount, deploy_apex_class_archive, classes_path_ne]
    · simp [declaredMemberTotal, deploy_apex_class_archive, classes_path_ne,
        manifest_members_count]
  · intro sv n f
    refine ⟨?_, ?_, ?_⟩
    · simp only [manifestEntryCount, deploy_lwc_component_archive, List.filter_append]
      split_ifs <;> simp [lwc_path_ne]
    · simp only [declaredMemberTotal, deploy_lwc_component_archive, List.map_append,
        List.sum_append]
      split_ifs <;> simp [lwc_path_ne, manifest_members_count]
    · simp only [deploy_lwc_component_archive, List.length_append]
      split_ifs <;> simp
  · intro o l p dsc sm sv
    refine ⟨?_, ?_⟩
    · simp [manifestEntryCount, upsert_custom_object_archive, objects_path_ne]
    · simp [declaredMemberTotal, upsert_custom_object_archive, objects_path_ne,
        manifest_members_count]
  · intro o fn sv cfg
    refine ⟨?_, ?_⟩
    · simp [manifestEntryCount, upsert_custom_field_archive, objects_path_ne]
    · simp [declaredMemberTotal, upsert_custom_field_archive, objects_path_ne,
        manifest_members_count]

/-! ## Field-descriptor generator claims (C7) -/

theorem countTagL_optLeaf (t : String) (c : Prop) [Decidable c] (tag s : String)
    (h : tag ≠ t) : countTagL t (optLeaf c tag s) = 0 := by
  unfold optLeaf
  split <;> simp [countTagL, countTag_leaf, h]

theorem countTagL_optMatchLeaf {α : Type} (t tag : String) (o : Option α) (f : α → String)
    (h : tag ≠ t) : countTagL t (optMatchLeaf o tag f) = 0 := by
  cases o <;> simp [optMatchLeaf, countTagL, countTag_leaf, h]

/-- The concrete offending descriptor: type `Picklist` with no candidate
values. -/
def picklistNoValuesCfg : FieldConfig :=
  { fullName := "Status__c", label := "Status", ty := "Picklist",
    length := none, visibleLines := none, precision := none, scale := none,
    defaultValue := none, description := none, required := none, unique := none,
    externalId := none, picklistValues := [], referenceTo := none,
    relationshipLabel := none, relationshipName := none, deleteConstraint := none }

/-- Claim C7, counterexample — `_generate_custom_field_xml` does **not**
fail on a `Picklist` descriptor with no candidate values: it returns a
complete `<CustomField>` document (here, exactly
`fullName`/`label`/`type`), with no `valueSet` element, instead of raising
a `DescriptorError` (the source has no such rejection path at all). -/
theorem C7_counterexample :
    _generate_custom_field_xml picklistNoValuesCfg =
      XmlNode.elem "CustomField"
        [leaf "fullName" "Status__c", leaf "label" "Status", leaf "type" "Picklist"] ∧
    countTag "valueSet" (_generate_custom_field_xml picklistNoValuesCfg) = 0 :=
  ⟨rfl, rfl⟩

/-- Claim C7, amended — for every field config whose declared type is a
picklist kind but whose candidate-value list is empty, the generator does
not reject: it totally produces a document that simply omits the
`valueSet` element. -/
theorem C7_picklist_no_values_silently_omitted (cfg : FieldConfig)
    (_hty : cfg.ty = "Picklist" ∨ cfg.ty = "MultiselectPicklist")
    (hpv : cfg.picklistValues = []) :
    countTag "valueSet" (_generate_custom_field_xml cfg) = 0 := by
  unfold _generate_custom_field_xml
  simp [hpv, countTag_elem, countTagL_append, countTagL_cons, countTagL_nil,
    countTag_leaf, countTagL_optLeaf, countTagL_optMatchLeaf,
    apply_ite (countTagL "valueSet")]

/-- Witness for the amended C7 at the concrete descriptor. -/
theorem C7_witness :
    countTag "valueSet" (_generate_custom_field_xml picklistNoValuesCfg) = 0 :=
  C7_picklist_no_values_silently_omitted picklistNoValuesCfg (Or.inl rfl) rfl

/-! ## Field-creation deploy discipline (C3) -/

theorem filterMap_deploy_replicate_statusGet (n : Nat) :
    (List.replicate n NetCall.statusGet).filterMap deployCheckOnly = [] := by
  induction n with
  | zero => rfl
  | succ m ih => simp [List.replicate_succ, deployCheckOnly, ih]

theorem filterMap_deploy_replicate_restCall (n : Nat) :
    (List.replicate n NetCall.restCall).filterMap deployCheckOnly = [] := by
  induction n with
  | zero => rfl
  | succ m ih => simp [List.replicate_succ, deployCheckOnly, ih]

def c3Dep : DeployEnv := ⟨fun _ => Except.ok "JOB", fun _ => PollResp.result true "Succeeded" none⟩

def c3FieldEnv : FieldToolEnv := ⟨c3Dep, "59.0", Except.ok ["Name"], Except.ok (), 4⟩

/-- Claim C3 — contrary to the claim (and to the tool's own docstring,
"Validation (check-only) first, then actual deploy"), `upsert_custom_field`
never submits a validate-only deploy: at the spec's own example input
(`Text` field `Customer_Code__c` on `Invoice__c`, absent per the existence
check) the deploy submissions of the invocation are exactly one
`checkOnly = False` submission; and over every environment and input, the
submission list is `[]` (stopped before deploying) or `[False]` — a
`checkOnly = True` submission never happens. -/
theorem C3_no_validate_only_deploy :
    ((upsert_custom_field c3FieldEnv "Invoice__c" "Customer_Code__c" "Customer Code" "Text"
        "length=80" false "").2.filterMap deployCheckOnly = [false]) ∧
    (∀ env o fa l ft tp r d,
      (upsert_custom_field env o fa l ft tp r d).2.filterMap deployCheckOnly = [] ∨
      (upsert_custom_field env o fa l ft tp r d).2.filterMap deployCheckOnly = [false]) := by
  constructor
  · rfl
  · intro env o fa l ft tp r d
    unfold upsert_custom_field
    dsimp only
    repeat' split
    all_goals
      first
      | (left; rfl)
      | (right;
         simp [deployCheckOnly, filterMap_deploy_replicate_statusGet,
           filterMap_deploy_replicate_restCall])

end SfMcp
